import Mathlib

/-!
# Verification of the life-curve timeline engine

Shallow embedding of the interactive timeline canvas engine of
`timeline.js` (the timeline engine portion of the repository), together
with proofs and refutations of the specification's claims.

Modelling conventions:
* JS numbers are modelled as `ℚ` (the engine performs only +, −, ×, ÷,
  `Math.floor` and `Math.round`, all exact on the inputs involved).
* A JS field that may be `undefined` is an `Option ℚ`; JS truthiness
  (`!photo.timelineX`), which treats both `undefined` and `0` as false,
  is the predicate `truthy`.
* `Date` values are modelled at calendar-day resolution as `CDate`
  (year / month / day); see `getDayOfYear` for the translation of the
  millisecond subtraction performed by the source.
* The module-level mutable variables of `timeline.js`
  (`isDrawing`, `isDraggingPhoto`, `draggedPhoto`, `hoveredPhoto`,
  `zoomLevel`, `panX`, `panY`, `isPanning`, `panStart`, `spacePressed`,
  the canvas cursor) together with the relevant fields of the
  application `state` object (`photos`, `curvePoints`, `orientation`,
  `selectedYear`, `isDrawingMode`) form one explicit state record
  `TLState`; each event handler becomes a function `TLState → … → TLState`.
* Object references (`draggedPhoto`, `hoveredPhoto`) are modelled as
  indices into the `photos` list, whose order the engine never changes.
-/

namespace LifeCurve

/-- A 2D point with rational coordinates (screen or content space). -/
structure Point where
  x : ℚ
  y : ℚ
  deriving DecidableEq, Repr

/-- Timeline orientation, `state.orientation ∈ {horizontal, vertical}`. -/
inductive Orient where
  | horizontal
  | vertical
  deriving DecidableEq, Repr

/-- A calendar date at day resolution (the engine reads year, month, day). -/
structure CDate where
  year : ℕ
  month : ℕ
  day : ℕ
  deriving DecidableEq, Repr

/-- JS truthiness of a possibly-undefined numeric field: `undefined` and
`0` are falsy, every other number is truthy.  Used wherever the source
writes `!photo.timelineX`, `!draggedPhoto.originalX`,
`!photo.initialTimelineY` or `draggedPhoto.originalX || …`. -/
def truthy (v : Option ℚ) : Prop := v.getD 0 ≠ 0

instance (v : Option ℚ) : Decidable (truthy v) := by
  unfold truthy
  infer_instance

/-- JS `a || b` on possibly-undefined numbers: `b` when `a` is falsy. -/
def jsOr (a b : Option ℚ) : Option ℚ := if truthy a then a else b

/-- `isLeapYear` from `timeline.js`:
`((year % 4 === 0) && (year % 100 !== 0)) || (year % 400 === 0)`. -/
def isLeapYear (y : ℕ) : Bool := (y % 4 == 0 && y % 100 != 0) || y % 400 == 0

/-- Length of month `m` (1-based) in a (non-)leap year, the Gregorian
month lengths underlying the JS `Date` arithmetic. -/
def monthLength (leap : Bool) (m : ℕ) : ℕ :=
  match m with
  | 1 => 31
  | 2 => if leap then 29 else 28
  | 3 => 31
  | 4 => 30
  | 5 => 31
  | 6 => 30
  | 7 => 31
  | 8 => 31
  | 9 => 30
  | 10 => 31
  | 11 => 30
  | 12 => 31
  | _ => 0

/-- Number of days in the months strictly before month `m` of a year. -/
def daysBeforeMonth (leap : Bool) (m : ℕ) : ℕ :=
  ((List.range (m - 1)).map (fun k => monthLength leap (k + 1))).sum

/-- `getDayOfYear` from `timeline.js`.  The source computes
`Math.floor((date − new Date(y, 0, 0)) / 86400000)`: `new Date(y, 0, 0)`
is December 31 of the previous year at midnight, so the quotient is the
number of whole days from that instant to `date`, i.e. the 1-based
ordinal day of `date` within its own year (the sub-day part of `date`
is discarded by the floor).  At day resolution this is the sum of the
lengths of the earlier months of `date.year` plus the day of month. -/
def getDayOfYear (d : CDate) : ℕ :=
  daysBeforeMonth (isLeapYear d.year) d.month + d.day

/-- `totalDays` as computed by both render paths:
`isLeapYear(state.selectedYear) ? 366 : 365`. -/
def totalDays (year : ℕ) : ℚ := if isLeapYear year then 366 else 365

/-- A photo as placed on the timeline.  `timelineX`, `timelineY` are its
content-space position (absent until first layout), `originalX`,
`originalY` the drag-origin bookkeeping set during a drag and deleted on
pointer-up, `initialTimelineY` the lazily captured emotion anchor. -/
structure Photo where
  pid : ℕ
  hasValidDate : Bool
  mdate : CDate
  timelineX : Option ℚ := none
  timelineY : Option ℚ := none
  originalX : Option ℚ := none
  originalY : Option ℚ := none
  initialTimelineY : Option ℚ := none
  deriving DecidableEq, Repr

/-- The scene configuration read by layout and the emotion computation:
orientation, canvas size (`canvasWidth`/`canvasHeight` globals) and the
selected reference year. -/
structure Cfg where
  orientation : Orient
  canvasWidth : ℚ
  canvasHeight : ℚ
  selectedYear : ℕ
  deriving DecidableEq, Repr

/-- The full mutable state of the timeline engine. -/
structure TLState where
  cfg : Cfg
  photos : List Photo
  curvePoints : List Point
  isDrawing : Bool
  lastPoint : Option Point
  isDraggingPhoto : Bool
  draggedPhoto : Option ℕ
  hoveredPhoto : Option ℕ
  zoomLevel : ℚ
  panX : ℚ
  panY : ℚ
  isPanning : Bool
  panStart : Point
  spacePressed : Bool
  isDrawingMode : Bool
  cursor : String
  deriving DecidableEq, Repr

/-- Screen → content transform, `(screen − pan) / zoom`, as computed
inline at every use site in the source (`(mouseX - panX) / zoomLevel`). -/
def toContent (s : TLState) (p : Point) : Point :=
  ⟨(p.x - s.panX) / s.zoomLevel, (p.y - s.panY) / s.zoomLevel⟩

/-- Content → screen transform, `content * zoom + pan`: the transform the
renderer applies via `ctx.translate(panX, panY); ctx.scale(zoomLevel,
zoomLevel)`, i.e. the inverse of `toContent`. -/
def toScreen (s : TLState) (p : Point) : Point :=
  ⟨p.x * s.zoomLevel + s.panX, p.y * s.zoomLevel + s.panY⟩

/-! ## Layout engine

`renderHorizontalTimeline` / `renderVerticalTimeline` position dated
photos on the time axis and `drawNoDateZone` grid-packs the undated
ones.  Both mutate only `timelineX` / `timelineY` of each photo; the
mutations are collected in `layoutPass`. -/

/-- The date-derived primary-axis coordinate of a dated photo:
`timelineStart + timelineLength * dayOfYear / totalDays`, with
`timelineStart = padding = 80` and
`timelineLength = (canvasWidth | canvasHeight) − 2 * padding` depending
on orientation.  `dayOfYear` uses the photo's own date,
`totalDays` the selected year. -/
def dateCoord (c : Cfg) (d : CDate) : ℚ :=
  let tLen : ℚ :=
    (match c.orientation with
     | .horizontal => c.canvasWidth
     | .vertical => c.canvasHeight) - 160
  80 + tLen * (getDayOfYear d : ℚ) / totalDays c.selectedYear

/-- Per-photo layout of a photo with a valid date.  Horizontal:
`timelineY` is initialised to the axis midline only when it is
`undefined` (`photo.timelineY === undefined`), while `timelineX` is
always re-set from the date; vertical is symmetric. -/
def layoutDated (c : Cfg) (p : Photo) : Photo :=
  match c.orientation with
  | .horizontal =>
      let p1 := if p.timelineY = none then { p with timelineY := some (c.canvasHeight / 2) } else p
      { p1 with timelineX := some (dateCoord c p.mdate) }
  | .vertical =>
      let p1 := if p.timelineX = none then { p with timelineX := some (c.canvasWidth / 2) } else p
      { p1 with timelineY := some (dateCoord c p.mdate) }

/-- Centre of grid slot `i` of the no-date zone.  The zone rectangle is
`(timelineStart, 50, 200, 150)` in horizontal orientation and
`(50, timelineStart, 150, 200)` in vertical, with `photoSize = 50`,
`gap = 10`, `cols = Math.floor((width − 2*gap) / (photoSize + gap))`,
`col = i % cols`, `row = Math.floor(i / cols)`,
`photoX = x + gap + col*(photoSize+gap) + photoSize/2`,
`photoY = y + 50 + row*(photoSize+gap) + photoSize/2`. -/
def gridSlot (c : Cfg) (i : ℕ) : ℚ × ℚ :=
  let zx : ℚ := match c.orientation with | .horizontal => 80 | .vertical => 50
  let zy : ℚ := match c.orientation with | .horizontal => 50 | .vertical => 80
  let zw : ℚ := match c.orientation with | .horizontal => 200 | .vertical => 150
  let cols : ℕ := (((zw - 20) / 60 : ℚ).floor).toNat
  let col : ℕ := i % cols
  let row : ℕ := i / cols
  (zx + 10 + (col : ℚ) * 60 + 25, zy + 50 + (row : ℚ) * 60 + 25)

/-- Per-photo layout of a photo without a valid date, `i` its index in
the undated subset: `if (!photo.timelineX || !photo.timelineY)` —
JS truthiness, so a coordinate equal to `0` also counts as unset —
both coordinates are (re-)initialised to the grid slot. -/
def layoutUndated (c : Cfg) (i : ℕ) (p : Photo) : Photo :=
  if ¬ truthy p.timelineX ∨ ¬ truthy p.timelineY then
    { p with timelineX := some (gridSlot c i).1, timelineY := some (gridSlot c i).2 }
  else p

/-- One pass over the photo list, threading the index within the undated
subset.  The source iterates `photosWithDate.forEach` and then
`photosWithoutDate.forEach((photo, index) => …)` over the two filtered
sublists; since each step mutates only its own photo and filtering
preserves order, this equals a single ordered pass in which an undated
photo's grid index is the number of undated photos before it. -/
def layoutList (c : Cfg) : ℕ → List Photo → List Photo
  | _, [] => []
  | i, p :: ps =>
      if p.hasValidDate then layoutDated c p :: layoutList c i ps
      else layoutUndated c i p :: layoutList c (i + 1) ps

/-- All photo mutations performed by one `renderTimeline` call (the
layout assignments of the orientation-specific render function and of
`drawNoDateZone`). -/
def layoutPass (c : Cfg) (ps : List Photo) : List Photo := layoutList c 0 ps

/-- `renderTimeline` as a state transition: the only engine state it
mutates is the photo layout (`layoutPass`).  The other photo mutation
reachable from the render path — the lazy emotion-anchor capture inside
`drawEmotionLevel` → `calculateEmotionLevel`, which runs only for the
photo currently being dragged and only once its image has decoded —
touches `initialTimelineY` alone, never the coordinates; it is modelled
separately by `calculateEmotionLevel`. -/
def renderPhotos (s : TLState) : TLState :=
  { s with photos := layoutPass s.cfg s.photos }

/-! ## Hit testing -/

/-- One photo's axis-aligned box test from `findPhotoAtPosition`:
photos with a falsy coordinate are skipped
(`if (!photo.timelineX || !photo.timelineY) continue`), otherwise the
content-space point must lie within half of `photoSize = 60` of the
photo centre on both axes. -/
def hitPhoto (m : Point) (p : Photo) : Prop :=
  truthy p.timelineX ∧ truthy p.timelineY ∧
    |m.x - p.timelineX.getD 0| ≤ 30 ∧ |m.y - p.timelineY.getD 0| ≤ 30

instance (m : Point) (p : Photo) : Decidable (hitPhoto m p) := by
  unfold hitPhoto
  infer_instance

/-- `findPhotoAtPosition`: first photo (stable collection order) whose
bounding box contains the content-space point, as an index. -/
def findPhotoIdx (m : Point) : List Photo → Option ℕ
  | [] => none
  | p :: ps => if hitPhoto m p then some 0 else (findPhotoIdx m ps).map (· + 1)

/-- Replace the photo at index `j` (identity elsewhere); models a
mutation performed through the `draggedPhoto` object reference. -/
def updateAt (j : ℕ) (f : Photo → Photo) : List Photo → List Photo
  | [] => []
  | p :: ps =>
      match j with
      | 0 => f p :: ps
      | j' + 1 => p :: updateAt j' f ps

/-! ## Freehand drawing handlers

`startDrawing` / `draw` / `stopDrawing` are attached by
`enableDrawing()` when draw mode is toggled on and detached by
`disableDrawing()`.  Note that both append the *raw* canvas-relative
pointer position (`e.clientX - rect.left`, `e.clientY - rect.top`) —
no `(p − pan) / zoom` inverse transform is applied. -/

/-- `startDrawing(e)`: set `isDrawing`, record `lastPoint`, append the
raw screen point to `state.curvePoints`. -/
def startDrawing (s : TLState) (raw : Point) : TLState :=
  { s with isDrawing := true, lastPoint := some raw, curvePoints := s.curvePoints ++ [raw] }

/-- `draw(e)`: when `isDrawing`, append the raw screen point and
re-render. -/
def draw (s : TLState) (raw : Point) : TLState :=
  if s.isDrawing then
    renderPhotos { s with curvePoints := s.curvePoints ++ [raw], lastPoint := some raw }
  else s

/-- `stopDrawing()`. -/
def stopDrawing (s : TLState) : TLState :=
  { s with isDrawing := false, lastPoint := none }

/-! ## Pointer interaction handlers -/

/-- The per-photo mutation of the drag branch of
`handleCanvasMouseMove`, at content-space pointer position `m`:
capture `originalX` / `originalY` when falsy, then in horizontal
orientation set `timelineX = originalX || timelineX` and
`timelineY = mouseY`; symmetric in vertical orientation. -/
def dragMoveUpdate (o : Orient) (m : Point) (p : Photo) : Photo :=
  let p1 := if truthy p.originalX then p else { p with originalX := p.timelineX }
  let p2 := if truthy p1.originalY then p1 else { p1 with originalY := p1.timelineY }
  match o with
  | .horizontal => { p2 with timelineX := jsOr p2.originalX p2.timelineX, timelineY := some m.y }
  | .vertical => { p2 with timelineX := some m.x, timelineY := jsOr p2.originalY p2.timelineY }

/-- `handleCanvasMouseMove(e)` at raw canvas position `raw`: early
return while actively drawing in draw mode; space+drag panning;
photo dragging with axis constraint (then re-render and return);
otherwise hover recomputation (re-render only on hover change) and
cursor update. -/
def handleCanvasMouseMove (s : TLState) (raw : Point) : TLState :=
  if s.isDrawingMode && s.isDrawing then s
  else if s.spacePressed && s.isPanning then
    renderPhotos { s with
      panX := s.panX + (raw.x - s.panStart.x),
      panY := s.panY + (raw.y - s.panStart.y),
      panStart := raw }
  else
    let m := toContent s raw
    let hover : TLState :=
      let hov := findPhotoIdx m s.photos
      let s1 := if hov ≠ s.hoveredPhoto then renderPhotos { s with hoveredPhoto := hov }
                else { s with hoveredPhoto := hov }
      { s1 with cursor :=
          if s.spacePressed then (if s.isPanning then "grabbing" else "grab")
          else if hov.isSome then "pointer" else "default" }
    match s.draggedPhoto with
    | some j =>
        if s.isDraggingPhoto then
          renderPhotos { s with photos := updateAt j (dragMoveUpdate s.cfg.orientation m) s.photos }
        else hover
    | none => hover

/-- `handleCanvasMouseDown(e)`: space ⇒ start panning; else hit-test in
content space; a hit starts a photo drag; a miss starts drawing when
draw mode is active. -/
def handleCanvasMouseDown (s : TLState) (raw : Point) : TLState :=
  if s.spacePressed then
    { s with isPanning := true, panStart := raw, cursor := "grabbing" }
  else
    let m := toContent s raw
    match findPhotoIdx m s.photos with
    | some j => { s with isDraggingPhoto := true, draggedPhoto := some j, cursor := "grabbing" }
    | none => if s.isDrawingMode then startDrawing s raw else s

/-- `delete draggedPhoto.originalX; delete draggedPhoto.originalY`. -/
def clearOriginals (p : Photo) : Photo :=
  { p with originalX := none, originalY := none }

/-- `handleCanvasMouseUp(e)`: end panning; end a photo drag by clearing
the drag flags and the drag-origin bookkeeping of the dragged photo.
The handler receives no press timestamp or press position (none is ever
recorded) and invokes no item-selected callback. -/
def handleCanvasMouseUp (s : TLState) : TLState :=
  let s1 :=
    if s.isPanning then
      { s with isPanning := false, cursor :=
          if s.spacePressed then "grab"
          else if s.hoveredPhoto.isSome then "pointer" else "default" }
    else s
  if s1.isDraggingPhoto then
    { s1 with
      isDraggingPhoto := false,
      photos := match s1.draggedPhoto with
                | some j => updateAt j clearOriginals s1.photos
                | none => s1.photos,
      draggedPhoto := none,
      cursor := if s1.hoveredPhoto.isSome then "pointer" else "default" }
  else s1

/-! ## Event dispatch

`initializeTimeline()` attaches `handleCanvasMouseDown/Move/Up` to the
canvas; `enableDrawing()` (called exactly when `state.isDrawingMode` is
toggled on, detached again when it is toggled off) attaches
`startDrawing` / `draw` / `stopDrawing` to the *same* events.  DOM
listeners on one target fire in registration order, so while draw mode
is active each pointer event runs the interaction handler first and the
drawing handler second. -/

/-- One canvas `mousedown` event. -/
def mousedownEvt (s : TLState) (raw : Point) : TLState :=
  if s.isDrawingMode then startDrawing (handleCanvasMouseDown s raw) raw
  else handleCanvasMouseDown s raw

/-- One canvas `mousemove` event. -/
def mousemoveEvt (s : TLState) (raw : Point) : TLState :=
  if s.isDrawingMode then draw (handleCanvasMouseMove s raw) raw
  else handleCanvasMouseMove s raw

/-- One canvas `mouseup` event. -/
def mouseupEvt (s : TLState) : TLState :=
  if s.isDrawingMode then stopDrawing (handleCanvasMouseUp s)
  else handleCanvasMouseUp s

/-- A complete press/move*/release interaction on the canvas. -/
def dragSession (s : TLState) (down : Point) (moves : List Point) : TLState :=
  mouseupEvt (moves.foldl mousemoveEvt (mousedownEvt s down))

/-! ## Zoom -/

/-- `handleZoom(e)` at raw cursor position `raw` with wheel delta
`deltaY`: `delta = deltaY > 0 ? -1 : 1`,
`newZoom = zoomLevel + delta * 0.1`; an out-of-range result is
*rejected* (`if (newZoom < minZoom || newZoom > maxZoom) return`),
otherwise pan is re-solved so the content point under the cursor stays
under the cursor, and the scene re-renders. -/
def handleZoom (s : TLState) (raw : Point) (deltaY : ℚ) : TLState :=
  let delta : ℚ := if deltaY > 0 then -1 else 1
  let newZoom := s.zoomLevel + delta * (1 / 10)
  if newZoom < 1 / 2 ∨ newZoom > 3 then s
  else
    let zp := toContent s raw
    renderPhotos { s with
      panX := raw.x - zp.x * newZoom,
      panY := raw.y - zp.y * newZoom,
      zoomLevel := newZoom }

/-! ## Emotion level -/

/-- `Math.max(-10, Math.min(10, level))`. -/
def jsClamp (n : ℤ) : ℤ := max (-10) (min 10 n)

/-- `calculateEmotionLevel(photo)`: lazily capture `initialTimelineY`
(`if (!photo.initialTimelineY)` — JS truthiness) as the canvas midline
in horizontal orientation or the photo's current `timelineY` in
vertical; the reference `centerY` is the canvas midline in horizontal
orientation and the captured anchor in vertical;
`level = clamp(Math.round((centerY − timelineY) / (canvasHeight/4) * 10))`.
Returns the mutated photo and the level (`none` models the `NaN`
produced when a needed coordinate is `undefined`). -/
def calculateEmotionLevel (o : Orient) (h : ℚ) (p : Photo) : Photo × Option ℤ :=
  let p1 :=
    if truthy p.initialTimelineY then p
    else { p with initialTimelineY :=
            match o with
            | .horizontal => some (h / 2)
            | .vertical => p.timelineY }
  let centerY : Option ℚ :=
    match o with
    | .horizontal => some (h / 2)
    | .vertical => p1.initialTimelineY
  match centerY, p1.timelineY with
  | some cy, some ty => (p1, some (jsClamp (round ((cy - ty) / (h / 4) * 10))))
  | _, _ => (p1, none)

/-- The photo mutation of one `calculateEmotionLevel` call. -/
def emoStep (o : Orient) (h : ℚ) (p : Photo) : Photo :=
  (calculateEmotionLevel o h p).1

/-! ## Definitions taken from the specification's words (for
refinement-style comparisons with the source definitions above). -/

/-- Modelled from the spec: `clamp(v, lo, hi)` as used in
"`newZoom = clamp(zoom + deltaSteps*step, minZoom, maxZoom)`". -/
def clampSpec (v lo hi : ℚ) : ℚ := max lo (min hi v)

/-- Modelled from the spec: the emotion level as the spec words it,
`round(distance / (frameExtent/4) * 10)` clamped to `[-10, 10]` with
`distance = anchorCoordinate − currentCoordinate`. -/
def emotionSpecLevel (anchor current frameExtent : ℚ) : ℤ :=
  jsClamp (round ((anchor - current) / (frameExtent / 4) * 10))

/-- Number of undated photos among the first `j` photos: the grid index
`drawNoDateZone` uses for the photo at position `j` of the collection. -/
def undatedBefore (ps : List Photo) (j : ℕ) : ℕ :=
  ((ps.take j).filter (fun p => !p.hasValidDate)).length

/-- A quiescent engine state — horizontal orientation, 1200×600 canvas,
year 2023, identity viewport, no interaction in progress — holding the
given photos.  Base state of the concrete scenarios below. -/
def idleSt (ps : List Photo) : TLState :=
  { cfg := ⟨.horizontal, 1200, 600, 2023⟩, photos := ps, curvePoints := [],
    isDrawing := false, lastPoint := none, isDraggingPhoto := false,
    draggedPhoto := none, hoveredPhoto := none, zoomLevel := 1, panX := 0,
    panY := 0, isPanning := false, panStart := ⟨0, 0⟩, spacePressed := false,
    isDrawingMode := false, cursor := "default" }

/-! ## Basic lemmas -/

@[simp]
theorem truthy_some (q : ℚ) : truthy (some q) ↔ q ≠ 0 := by
  simp [truthy]

@[simp]
theorem truthy_none : truthy (none : Option ℚ) ↔ False := by
  simp [truthy]

theorem updateAt_get? (f : Photo → Photo) :
    ∀ (j i : ℕ) (ps : List Photo),
      (updateAt j f ps).get? i = if i = j then (ps.get? i).map f else ps.get? i := by
  intro j i ps
  induction ps generalizing i j with
  | nil => simp [updateAt]
  | cons q qs ih =>
      cases j with
      | zero =>
          cases i with
          | zero => simp [updateAt]
          | succ i' => simp [updateAt]
      | succ j' =>
          cases i with
          | zero => simp [updateAt]
          | succ i' =>
              simp only [updateAt, List.get?_cons_succ, ih j' i', Nat.succ_eq_add_one,
                Nat.add_right_cancel_iff]

theorem findPhotoIdx_get? (m : Point) :
    ∀ (ps : List Photo) (j : ℕ), findPhotoIdx m ps = some j →
      ∃ p, ps.get? j = some p ∧ hitPhoto m p := by
  intro ps
  induction ps with
  | nil => intro j h; simp [findPhotoIdx] at h
  | cons q qs ih =>
      intro j h
      by_cases hq : hitPhoto m q
      · rw [findPhotoIdx, if_pos hq] at h
        obtain rfl : (0 : ℕ) = j := Option.some.inj h
        exact ⟨q, rfl, hq⟩
      · rw [findPhotoIdx, if_neg hq] at h
        obtain ⟨j', hj', rfl⟩ := Option.map_eq_some'.mp h
        obtain ⟨p, hp, hhit⟩ := ih j' hj'
        exact ⟨p, hp, hhit⟩

theorem layoutList_get? (c : Cfg) :
    ∀ (ps : List Photo) (i j : ℕ) (p : Photo), ps.get? j = some p →
      (layoutList c i ps).get? j =
        some (if p.hasValidDate then layoutDated c p
              else layoutUndated c (i + undatedBefore ps j) p) := by
  intro ps
  induction ps with
  | nil => intro i j p h; simp at h
  | cons q qs ih =>
      intro i j p h
      cases j with
      | zero =>
          obtain rfl : q = p := Option.some.inj h
          by_cases hd : q.hasValidDate <;>
            simp [layoutList, hd, undatedBefore]
      | succ j' =>
          rw [List.get?_cons_succ] at h
          have htake : undatedBefore (q :: qs) (j' + 1) =
              (if q.hasValidDate then 0 else 1) + undatedBefore qs j' := by
            cases hvd : q.hasValidDate <;>
              simp [undatedBefore, List.take_succ_cons, List.filter_cons, hvd, Nat.add_comm]
          rw [htake]
          cases hvd : q.hasValidDate
          · simp only [layoutList, if_neg (by simp [hvd] : ¬ q.hasValidDate = true),
              List.get?_cons_succ, ih (i + 1) j' p h, Bool.false_eq_true, if_false]
            have harith : i + 1 + undatedBefore qs j' = i + (1 + undatedBefore qs j') := by omega
            rw [harith]
          · simp only [layoutList, if_pos hvd, List.get?_cons_succ, ih i j' p h, if_true]
            simp

theorem clearOriginals_timelineX (p : Photo) : (clearOriginals p).timelineX = p.timelineX := rfl

theorem clearOriginals_timelineY (p : Photo) : (clearOriginals p).timelineY = p.timelineY := rfl

/-! ## Claim C9 — leap years and day-of-year -/

/-- C9: the leap-year predicate returns true for 2000 and 2024 and false
for 1900 and 2023, and `getDayOfYear` is the 1-based ordinal day within
the date's own year: it returns 1 for January 1 of any year and 366 for
December 31 of a leap year. -/
theorem claim_C9_calendar :
    (isLeapYear 2000 = true ∧ isLeapYear 2024 = true ∧
     isLeapYear 1900 = false ∧ isLeapYear 2023 = false)
    ∧ (∀ y : ℕ, getDayOfYear ⟨y, 1, 1⟩ = 1)
    ∧ (∀ y : ℕ, isLeapYear y = true → getDayOfYear ⟨y, 12, 31⟩ = 366) := by
  refine ⟨⟨rfl, rfl, rfl, rfl⟩, fun y => rfl, fun y hy => ?_⟩
  show daysBeforeMonth (isLeapYear y) 12 + 31 = 366
  rw [hy]
  rfl

/-- Witness for `claim_C9_calendar` at the leap year 2024. -/
theorem claim_C9_calendar_holds :
    isLeapYear 2024 = true ∧ getDayOfYear ⟨2024, 12, 31⟩ = 366 :=
  ⟨by decide, claim_C9_calendar.2.2 2024 (by decide)⟩

/-! ## Claim C7 — focal-point invariance of zoom -/

/-- The unclamped wheel-zoom target `zoomLevel + delta * 0.1`. -/
def wheelZoomTarget (s : TLState) (deltaY : ℚ) : ℚ :=
  s.zoomLevel + (if deltaY > 0 then (-1 : ℚ) else 1) * (1 / 10)

/-- C7: for every in-bounds zoom step with a fixed screen focal point,
the content point under the focal point before the zoom maps back to
exactly the same screen position after the zoom (exact arithmetic). -/
theorem claim_C7_focal_point (s : TLState) (raw : Point) (deltaY : ℚ)
    (hin : ¬ (wheelZoomTarget s deltaY < 1 / 2 ∨ wheelZoomTarget s deltaY > 3)) :
    toScreen (handleZoom s raw deltaY) (toContent s raw) = raw := by
  simp only [wheelZoomTarget] at hin
  simp only [handleZoom, toScreen, toContent, renderPhotos, if_neg hin]
  cases raw with
  | mk rx ry =>
      simp only [Point.mk.injEq]
      constructor <;> ring

/-- Witness for `claim_C7_focal_point`: zoom 1 → 1.1 at focus (7, 8)
with pan (3, 4). -/
theorem claim_C7_focal_point_holds :
    toScreen (handleZoom { idleSt [] with panX := 3, panY := 4 } ⟨7, 8⟩ (-1))
        (toContent { idleSt [] with panX := 3, panY := 4 } ⟨7, 8⟩) = ⟨7, 8⟩ :=
  claim_C7_focal_point { idleSt [] with panX := 3, panY := 4 } ⟨7, 8⟩ (-1)
    (by norm_num [wheelZoomTarget, idleSt])

/-! ## Claim C2 — out-of-bounds zoom requests are rejected, not clamped -/

/-- C2 (counterexample): at zoom level 2.95 (reachable through the zoom
slider, which sets any integer percentage up to 300), a zoom-in request
has unclamped target 3.05; the claim says the new level is the clamped
boundary 3, but `handleZoom` returns with the state unchanged at 2.95. -/
theorem claim_C2_counterexample :
    (handleZoom { idleSt [] with zoomLevel := 59 / 20 } ⟨0, 0⟩ (-1)).zoomLevel = 59 / 20
    ∧ clampSpec (59 / 20 + 1 / 10) (1 / 2) 3 = 3
    ∧ (59 / 20 : ℚ) ≠ 3 := by
  refine ⟨?_, by norm_num [clampSpec], by norm_num⟩
  norm_num [handleZoom, idleSt]

/-- C2 (amended): the wheel handler computes `newZoom = zoom ± 0.1`; a
request whose target lies outside `[0.5, 3]` is rejected outright — the
whole state is left unchanged, with no clamping to the boundary — and an
in-bounds target is applied exactly. -/
theorem claim_C2_zoom_reject (s : TLState) (raw : Point) (deltaY : ℚ) :
    ((wheelZoomTarget s deltaY < 1 / 2 ∨ wheelZoomTarget s deltaY > 3) →
        handleZoom s raw deltaY = s)
    ∧ (¬ (wheelZoomTarget s deltaY < 1 / 2 ∨ wheelZoomTarget s deltaY > 3) →
        (handleZoom s raw deltaY).zoomLevel = wheelZoomTarget s deltaY) := by
  constructor <;> intro h
  · simp only [wheelZoomTarget] at h
    simp only [handleZoom, if_pos h]
  · simp only [wheelZoomTarget] at h ⊢
    simp only [handleZoom, if_neg h, renderPhotos]

/-- Witness for `claim_C2_zoom_reject`: the 2.95 → 3.05 request is a
complete no-op. -/
theorem claim_C2_zoom_reject_holds :
    handleZoom { idleSt [] with zoomLevel := 59 / 20 } ⟨0, 0⟩ (-1)
      = { idleSt [] with zoomLevel := 59 / 20 } :=
  (claim_C2_zoom_reject { idleSt [] with zoomLevel := 59 / 20 } ⟨0, 0⟩ (-1)).1
    (by norm_num [wheelZoomTarget, idleSt])

/-! ## Claim C3 — curve points are recorded in screen space, not
content space -/

/-- C3 (code bug): with pan (10, 0) and zoom 2, a pointer-down (and a
pointer-move while drawing) at screen point (100, 100) appends the raw
screen point (100, 100) to the curve — not the content-space point
(45, 50) = `(screen − pan) / zoom` that the claim (and the renderer,
which draws the curve under the content transform) requires. -/
theorem claim_C3_screen_space_append :
    (startDrawing { idleSt [] with panX := 10, zoomLevel := 2 } ⟨100, 100⟩).curvePoints
        = [⟨100, 100⟩]
    ∧ (draw { idleSt [] with panX := 10, zoomLevel := 2, isDrawing := true }
        ⟨100, 100⟩).curvePoints = [⟨100, 100⟩]
    ∧ toContent { idleSt [] with panX := 10, zoomLevel := 2 } ⟨100, 100⟩ = ⟨45, 50⟩
    ∧ (⟨100, 100⟩ : Point) ≠ ⟨45, 50⟩ := by
  refine ⟨rfl, ?_, ?_, ?_⟩
  · norm_num [draw, idleSt, renderPhotos, layoutPass, layoutList]
  · norm_num [toContent, idleSt, Point.mk.injEq]
  · simp [Point.mk.injEq]

/-! ## Claim C4 — the interaction flags are not mutually exclusive -/

/-- C4 (code bug): while draw mode is active, `enableDrawing()` has
registered `startDrawing` as a second `mousedown` listener after
`handleCanvasMouseDown`, so a single pointer-down that hits a photo
leaves *both* `isDraggingPhoto` and `isDrawing` set (and pushes a stray
curve point), violating the mutual-exclusion invariant stated by the
claim and by the source's own comment ("If not, start drawing; if yes,
allow photo drag"). -/
theorem claim_C4_double_listener :
    (mousedownEvt
        { idleSt [⟨1, false, ⟨2023, 1, 1⟩, some 300, some 300, none, none, none⟩] with
          isDrawingMode := true } ⟨300, 300⟩).isDraggingPhoto = true
    ∧ (mousedownEvt
        { idleSt [⟨1, false, ⟨2023, 1, 1⟩, some 300, some 300, none, none, none⟩] with
          isDrawingMode := true } ⟨300, 300⟩).isDrawing = true
    ∧ (mousedownEvt
        { idleSt [⟨1, false, ⟨2023, 1, 1⟩, some 300, some 300, none, none, none⟩] with
          isDrawingMode := true } ⟨300, 300⟩).curvePoints = [⟨300, 300⟩] := by
  refine ⟨?_, ?_, ?_⟩ <;>
    norm_num [mousedownEvt, handleCanvasMouseDown, startDrawing, findPhotoIdx,
      hitPhoto, toContent, idleSt]

/-! ## Claim C5 — the emotion-level formula -/

/-- C5 (counterexample): a photo whose anchor `initialTimelineY = 500`
was captured while the orientation was vertical (canvas height 1000),
after toggling to horizontal orientation (canvas height 600) and
dragging to `timelineY = 450`: the claim's formula from the stored
anchor gives `round((500 − 450) / 150 * 10) = 3`, but the code measures
from the canvas midline `canvasHeight / 2 = 300` in horizontal
orientation and returns `−10`. -/
theorem claim_C5_counterexample :
    (calculateEmotionLevel .horizontal 600
        ⟨1, true, ⟨2023, 6, 1⟩, some 300, some 450, none, none, some 500⟩).2 = some (-10)
    ∧ emotionSpecLevel 500 450 600 = 3
    ∧ ((-10 : ℤ) ≠ 3) := by
  refine ⟨?_, ?_, by decide⟩
  · norm_num [calculateEmotionLevel, jsClamp, round_eq]
  · norm_num [emotionSpecLevel, jsClamp, round_eq]

/-- C5 (amended): for every item with a (truthy) drag anchor, the
emotion level is `round(distance / (canvasHeight/4) * 10)` clamped to
`[−10, 10]`, where the distance is measured from the stored anchor in
vertical orientation but from the canvas midline `canvasHeight / 2` in
horizontal orientation — the two coincide exactly when the anchor was
captured in horizontal orientation at the same canvas height (the
hypothesis `hhoriz`).  Under that proviso: displacement of exactly a
quarter of the canvas height in the level-increasing direction yields
10, half of that yields 5, zero displacement yields 0, and displacement
beyond a quarter saturates at 10. -/
theorem claim_C5_emotion_formula (o : Orient) (hgt : ℚ) (p : Photo) (a y : ℚ)
    (hpos : 0 < hgt)
    (hanchor : p.initialTimelineY = some a) (hane : a ≠ 0)
    (hy : p.timelineY = some y)
    (hhoriz : o = .horizontal → a = hgt / 2) :
    (calculateEmotionLevel o hgt p).2 = some (emotionSpecLevel a y hgt)
    ∧ (a - y = hgt / 4 → (calculateEmotionLevel o hgt p).2 = some 10)
    ∧ (a - y = hgt / 8 → (calculateEmotionLevel o hgt p).2 = some 5)
    ∧ (a - y = 0 → (calculateEmotionLevel o hgt p).2 = some 0)
    ∧ (hgt / 4 ≤ a - y → (calculateEmotionLevel o hgt p).2 = some 10) := by
  have htr : truthy p.initialTimelineY := by
    rw [hanchor]
    simpa using hane
  have hmain : (calculateEmotionLevel o hgt p).2 = some (emotionSpecLevel a y hgt) := by
    cases o with
    | horizontal =>
        simp only [calculateEmotionLevel]
        rw [if_pos htr]
        simp only [hy, emotionSpecLevel]
        rw [hhoriz rfl]
    | vertical =>
        simp only [calculateEmotionLevel]
        rw [if_pos htr]
        simp only [hanchor, hy, emotionSpecLevel]
  have hne4 : hgt / 4 ≠ 0 := by positivity
  refine ⟨hmain, ?_, ?_, ?_, ?_⟩
  · intro hq
    rw [hmain, emotionSpecLevel, hq, div_self hne4]
    norm_num [jsClamp]
  · intro hq
    have h8 : hgt / 8 / (hgt / 4) * 10 = 5 := by
      have : hgt ≠ 0 := ne_of_gt hpos
      field_simp
      ring
    rw [hmain, emotionSpecLevel, hq, h8]
    norm_num [jsClamp]
  · intro hq
    rw [hmain, emotionSpecLevel, hq, zero_div]
    norm_num [jsClamp]
  · intro hq
    have h1 : (1 : ℚ) ≤ (a - y) / (hgt / 4) := by
      rw [le_div_iff₀ (by positivity)]
      linarith
    have h10 : (10 : ℚ) ≤ (a - y) / (hgt / 4) * 10 := by nlinarith
    have hr : (10 : ℤ) ≤ round ((a - y) / (hgt / 4) * 10) := by
      rw [round_eq, Int.le_floor]
      push_cast
      linarith
    rw [hmain, emotionSpecLevel, jsClamp, min_eq_left hr]
    decide

/-- Witness for `claim_C5_emotion_formula`: anchor 300 on a 600-high
horizontal canvas, dragged up by a quarter of the canvas height
(`timelineY = 150`) → level 10. -/
theorem claim_C5_emotion_formula_holds :
    (calculateEmotionLevel .horizontal 600
        ⟨1, true, ⟨2023, 6, 1⟩, some 300, some 150, none, none, some 300⟩).2 = some 10 :=
  (claim_C5_emotion_formula .horizontal 600
      ⟨1, true, ⟨2023, 6, 1⟩, some 300, some 150, none, none, some 300⟩ 300 150
      (by norm_num) rfl (by norm_num) rfl (fun _ => by norm_num)).2.1 (by norm_num)

/-! ## Claim C10 — vertically captured anchors always measure zero -/

/-- The invariant behind claim C10: the photo's vertical coordinate is
`y` and its anchor is either not yet (truthily) captured or equal to
`y`. -/
def emoInv (y : ℚ) (p : Photo) : Prop :=
  p.timelineY = some y ∧ (¬ truthy p.initialTimelineY ∨ p.initialTimelineY = some y)

theorem emoInv_level (h : ℚ) {y : ℚ} {p : Photo} (hp : emoInv y p) :
    (calculateEmotionLevel .vertical h p).2 = some 0 ∧ emoInv y (emoStep .vertical h p) := by
  obtain ⟨hy, ha⟩ := hp
  by_cases htr : truthy p.initialTimelineY
  · have hav : p.initialTimelineY = some y := ha.resolve_left (by simpa using htr)
    constructor
    · simp only [calculateEmotionLevel]
      rw [if_pos htr]
      simp only [hav, hy]
      norm_num [jsClamp]
    · refine ⟨?_, Or.inr ?_⟩ <;>
        · simp only [emoStep, calculateEmotionLevel]
          rw [if_pos htr]
          simp [hy, hav]
  · constructor
    · simp only [calculateEmotionLevel]
      rw [if_neg htr]
      simp only [hy]
      norm_num [jsClamp]
    · refine ⟨?_, Or.inr ?_⟩ <;>
        · simp only [emoStep, calculateEmotionLevel]
          rw [if_neg htr]
          simp [hy]

theorem emoInv_iter (h : ℚ) {y : ℚ} {p : Photo} (hp : emoInv y p) :
    ∀ n : ℕ, emoInv y ((emoStep .vertical h)^[n] p) := by
  intro n
  induction n with
  | zero => simpa using hp
  | succ n ih =>
      rw [Function.iterate_succ_apply']
      exact (emoInv_level h ih).2

/-- C10: in vertical orientation, for a photo whose emotion anchor has
not been (truthily) captured yet, `calculateEmotionLevel` returns 0 on
that call and on every subsequent call while the photo's vertical
coordinate is unchanged: the anchor is initialised to the current
`timelineY`, and the reference `centerY` is that anchor, so the measured
distance is always zero. -/
theorem claim_C10_vertical_anchor_zero (h : ℚ) (p : Photo) (y : ℚ)
    (hy : p.timelineY = some y) (h0 : ¬ truthy p.initialTimelineY) :
    ∀ n : ℕ, (calculateEmotionLevel .vertical h ((emoStep .vertical h)^[n] p)).2 = some 0 :=
  fun n => (emoInv_level h (emoInv_iter h ⟨hy, Or.inl h0⟩ n)).1

/-- Witness for `claim_C10_vertical_anchor_zero` after two repeated
calls on a photo at `timelineY = 250`. -/
theorem claim_C10_vertical_anchor_zero_holds :
    (calculateEmotionLevel .vertical 600
        ((emoStep .vertical 600)^[2]
          ⟨1, true, ⟨2023, 6, 1⟩, some 400, some 250, none, none, none⟩)).2 = some 0 :=
  claim_C10_vertical_anchor_zero 600
    ⟨1, true, ⟨2023, 6, 1⟩, some 400, some 250, none, none, none⟩ 250 rfl (by simp) 2

/-! ## Claim C1 — there is no click-vs-drag disambiguation -/

/-- C1 (amended): the pointer-up handler performs no click-vs-drag test
and invokes no item-selected callback (none exists in the engine — no
press timestamp or press point is ever recorded, so the handler cannot
even observe elapsed time or displacement).  It only ends any pan or
drag in progress and clears the drag-origin bookkeeping, leaving every
photo's position exactly as the drag left it: every press/release pair,
however short and small, is committed as a drag. -/
theorem claim_C1_no_click_branch (s : TLState) (j : ℕ) :
    (handleCanvasMouseUp s).isPanning = false
    ∧ (handleCanvasMouseUp s).isDraggingPhoto = false
    ∧ ((handleCanvasMouseUp s).photos.get? j).map Photo.timelineX
        = (s.photos.get? j).map Photo.timelineX
    ∧ ((handleCanvasMouseUp s).photos.get? j).map Photo.timelineY
        = (s.photos.get? j).map Photo.timelineY := by
  have hcoord : ∀ (k : ℕ) (ps : List Photo),
      ((updateAt k clearOriginals ps).get? j).map Photo.timelineX
          = (ps.get? j).map Photo.timelineX
        ∧ ((updateAt k clearOriginals ps).get? j).map Photo.timelineY
          = (ps.get? j).map Photo.timelineY := by
    intro k ps
    rw [updateAt_get? clearOriginals k j ps]
    by_cases hjk : j = k
    · rw [if_pos hjk, Option.map_map, Option.map_map]
      constructor <;> rfl
    · rw [if_neg hjk]
      exact ⟨rfl, rfl⟩
  unfold handleCanvasMouseUp
  by_cases hp : s.isPanning <;> by_cases hd : s.isDraggingPhoto <;>
    simp only [hp, hd, if_true, if_false, Bool.false_eq_true, ite_true, ite_false] <;>
    cases hdp : s.draggedPhoto <;>
    simp_all [hcoord]

/-- C1 (counterexample): a photo sits at content point (300, 300); the
pointer goes down on it and up after a single 2-pixel move — exactly the
claim's "elapsed time 100 ms, displacement 2 px" pair (the handlers take
no time input at all, so the trace is the same at any elapsed time).
No item-selected callback exists to fire; instead the pair is committed
as a drag: the photo's `timelineY` has moved from 300 to 302. -/
theorem claim_C1_counterexample :
    ((dragSession (idleSt [⟨1, false, ⟨2023, 1, 1⟩, some 300, some 300, none, none, none⟩])
        ⟨300, 300⟩ [⟨300, 302⟩]).photos.map Photo.timelineY = [some 302])
    ∧ ((idleSt [⟨1, false, ⟨2023, 1, 1⟩, some 300, some 300, none, none, none⟩]).photos.map
        Photo.timelineY = [some 300])
    ∧ (some (302 : ℚ) ≠ some (300 : ℚ))
    ∧ (dragSession (idleSt [⟨1, false, ⟨2023, 1, 1⟩, some 300, some 300, none, none, none⟩])
        ⟨300, 300⟩ [⟨300, 302⟩]).isDraggingPhoto = false := by
  refine ⟨?_, rfl, by simp, ?_⟩ <;>
    norm_num [dragSession, mousedownEvt, mousemoveEvt, mouseupEvt, handleCanvasMouseDown,
      handleCanvasMouseMove, handleCanvasMouseUp, findPhotoIdx, hitPhoto, toContent,
      idleSt, dragMoveUpdate, jsOr, updateAt, renderPhotos, layoutPass,
      layoutList, layoutUndated, clearOriginals]

/-! ## Claim C8 — layout of undated photos -/

/-- C8 (amended): a layout pass never gives an undated photo a
time-axis-derived coordinate: the photo at position `j` is either left
completely untouched — which happens exactly when both stored
coordinates are truthy, i.e. present *and nonzero* — or both of its
coordinates are (re-)initialised to the fallback-grid slot determined by
its index within the undated subset.  Consequently a position assigned
by the grid or by a drag persists across further layout passes *only as
long as both coordinates stay nonzero*; a drag that parks a coordinate
at exactly 0 makes the JS falsy check treat the position as unset and
the next pass snaps the photo back to its grid slot. -/
theorem claim_C8_undated_layout (c : Cfg) (ps : List Photo) (j : ℕ) (p : Photo)
    (hj : ps.get? j = some p) (hundated : p.hasValidDate = false) :
    ∃ q, (layoutPass c ps).get? j = some q
      ∧ ((truthy p.timelineX ∧ truthy p.timelineY) →
          q.timelineX = p.timelineX ∧ q.timelineY = p.timelineY)
      ∧ (¬ (truthy p.timelineX ∧ truthy p.timelineY) →
          q.timelineX = some (gridSlot c (undatedBefore ps j)).1
          ∧ q.timelineY = some (gridSlot c (undatedBefore ps j)).2) := by
  rw [layoutPass, layoutList_get? c ps 0 j p hj, if_neg (by simp [hundated]), Nat.zero_add]
  refine ⟨layoutUndated c (undatedBefore ps j) p, rfl, ?_, ?_⟩
  · intro htr
    rw [layoutUndated, if_neg (by push_neg; exact htr)]
    exact ⟨rfl, rfl⟩
  · intro htr
    rw [layoutUndated, if_pos (by tauto)]
    exact ⟨rfl, rfl⟩

/-- Witness for `claim_C8_undated_layout`: an undated photo already
placed at the nonzero position (400, 200) is untouched by a layout
pass. -/
theorem claim_C8_undated_layout_holds :
    ∃ q, (layoutPass ⟨.horizontal, 1200, 600, 2023⟩
        [⟨1, false, ⟨2023, 1, 1⟩, some 400, some 200, none, none, none⟩]).get? 0 = some q
      ∧ ((truthy (some (400 : ℚ)) ∧ truthy (some (200 : ℚ))) →
          q.timelineX = some 400 ∧ q.timelineY = some 200) := by
  obtain ⟨q, h1, h2, h3⟩ := claim_C8_undated_layout ⟨.horizontal, 1200, 600, 2023⟩
    [⟨1, false, ⟨2023, 1, 1⟩, some 400, some 200, none, none, none⟩] 0
    ⟨1, false, ⟨2023, 1, 1⟩, some 400, some 200, none, none, none⟩ rfl rfl
  exact ⟨q, h1, h2⟩

/-- C8 (counterexample): an undated photo whose position was assigned
as (100, 0) — e.g. dragged so its free coordinate is exactly 0 — is
*not* left untouched by the next layout pass: the JS falsy test
`!photo.timelineY` fires and both coordinates are snapped back to grid
slot 0 at (115, 125). -/
theorem claim_C8_counterexample :
    ((layoutPass ⟨.horizontal, 1200, 600, 2023⟩
        [⟨1, false, ⟨2023, 1, 1⟩, some 100, some 0, none, none, none⟩]).map
          (fun p => (p.timelineX, p.timelineY)))
        = [(some 115, some 125)]
    ∧ ((some (115 : ℚ), some (125 : ℚ)) ≠ (some (100 : ℚ), some (0 : ℚ))) := by
  constructor
  · norm_num [layoutPass, layoutList, layoutUndated, gridSlot]
  · simp

/-! ## Claim C6 — the drag-axis constraint -/

/-- C6 (counterexample): an undated photo previously relocated (by a
vertical-orientation drag) to `timelineX = 999`, sitting at (999, 200)
on a horizontal timeline.  A drag whose pointer move reaches content
`y = 0` pins `timelineX = 999` in the move handler, but the re-render
the same move triggers runs the falsy grid check
(`!photo.timelineY` with `timelineY = 0`) and re-initialises *both*
coordinates to grid slot 0: after the drag ends `timelineX = 115 ≠ 999`
— the primary coordinate did not keep its pre-drag value. -/
theorem claim_C6_counterexample :
    ((dragSession (idleSt [⟨1, false, ⟨2023, 1, 1⟩, some 999, some 200, none, none, none⟩])
        ⟨999, 200⟩ [⟨999, 0⟩]).photos.map Photo.timelineX = [some 115])
    ∧ ((idleSt [⟨1, false, ⟨2023, 1, 1⟩, some 999, some 200, none, none, none⟩]).photos.map
        Photo.timelineX = [some 999])
    ∧ (some (115 : ℚ) ≠ some (999 : ℚ)) := by
  refine ⟨?_, rfl, by simp⟩
  norm_num [dragSession, mousedownEvt, mousemoveEvt, mouseupEvt, handleCanvasMouseDown,
    handleCanvasMouseMove, handleCanvasMouseUp, findPhotoIdx, hitPhoto, toContent,
    idleSt, dragMoveUpdate, jsOr, updateAt, renderPhotos, layoutPass,
    layoutList, layoutUndated, gridSlot, clearOriginals]

/-- The invariant maintained across the pointer moves of a horizontal
drag session on the photo at index `j`: the press state was `s0`, the
dragged photo keeps `timelineX = x0` together with the bookkeeping
facts that force the next move to keep it there. -/
def DragInv (s0 : TLState) (j : ℕ) (x0 : ℚ) (p0 : Photo) (s : TLState) : Prop :=
  s.cfg = s0.cfg ∧ s.spacePressed = false ∧ s.isDraggingPhoto = true ∧
  s.draggedPhoto = some j ∧ s.isDrawingMode = s0.isDrawingMode ∧
  s.isDrawing = s0.isDrawingMode ∧ s.panY = s0.panY ∧ s.zoomLevel = s0.zoomLevel ∧
  ∃ q ty, s.photos.get? j = some q ∧ q.timelineX = some x0 ∧
    q.hasValidDate = p0.hasValidDate ∧ q.mdate = p0.mdate ∧
    q.timelineY = some ty ∧ (p0.hasValidDate = false → ty ≠ 0) ∧
    (¬ truthy q.originalX ∨ q.originalX = some x0)

theorem layout_pin (c : Cfg) (x0 : ℚ) (horient : c.orientation = .horizontal)
    (ps : List Photo) (j : ℕ) (q : Photo) (ty : ℚ)
    (hj : ps.get? j = some q) (hX : q.timelineX = some x0) (hY : q.timelineY = some ty)
    (hx0 : x0 ≠ 0)
    (hdate : q.hasValidDate = true → dateCoord c q.mdate = x0)
    (hty : q.hasValidDate = false → ty ≠ 0) :
    ∃ q', (layoutPass c ps).get? j = some q' ∧ q'.timelineX = some x0 ∧
      q'.timelineY = some ty ∧ q'.hasValidDate = q.hasValidDate ∧
      q'.mdate = q.mdate ∧ q'.originalX = q.originalX := by
  rw [layoutPass, layoutList_get? c ps 0 j q hj]
  by_cases hvd : q.hasValidDate = true
  · rw [if_pos hvd]
    refine ⟨layoutDated c q, rfl, ?_⟩
    unfold layoutDated
    rw [horient]
    rw [if_neg (by simp [hY])]
    exact ⟨by simp [hdate hvd], by simp [hY], by simp, by simp, by simp⟩
  · have hvd' : q.hasValidDate = false := by simpa using hvd
    rw [if_neg hvd]
    rw [layoutUndated, if_neg (by
      push_neg
      exact ⟨by simp [hX, hx0, truthy], by simp [hY, hty hvd', truthy]⟩)]
    exact ⟨q, rfl, hX, hY, rfl, rfl, rfl⟩

theorem dragMove_pin (m : Point) (q : Photo) (x0 : ℚ) (hX : q.timelineX = some x0)
    (hx0 : x0 ≠ 0) (hor : ¬ truthy q.originalX ∨ q.originalX = some x0) :
    (dragMoveUpdate .horizontal m q).timelineX = some x0 ∧
    (dragMoveUpdate .horizontal m q).timelineY = some m.y ∧
    (dragMoveUpdate .horizontal m q).hasValidDate = q.hasValidDate ∧
    (dragMoveUpdate .horizontal m q).mdate = q.mdate ∧
    (dragMoveUpdate .horizontal m q).originalX = some x0 := by
  have hox : (if truthy q.originalX then q
      else { q with originalX := q.timelineX }).originalX = some x0 := by
    by_cases htr : truthy q.originalX
    · rw [if_pos htr]
      exact hor.resolve_left (by simpa using htr)
    · rw [if_neg htr]
      simpa using hX
  unfold dragMoveUpdate
  by_cases htr : truthy q.originalX <;>
    by_cases htry : truthy (if truthy q.originalX then q
        else { q with originalX := q.timelineX }).originalY <;>
    simp_all [jsOr, hx0]

theorem dragInv_step (s0 : TLState) (j : ℕ) (x0 : ℚ) (p0 : Photo)
    (horient : s0.cfg.orientation = .horizontal) (hx0 : x0 ≠ 0)
    (hdate : p0.hasValidDate = true → dateCoord s0.cfg p0.mdate = x0)
    (m : Point) (hm : p0.hasValidDate = false → (m.y - s0.panY) / s0.zoomLevel ≠ 0)
    (s : TLState) (hinv : DragInv s0 j x0 p0 s) :
    DragInv s0 j x0 p0 (mousemoveEvt s m) := by
  obtain ⟨hcfg, hsp, hdragging, hdragged, hdm, hdrw, hpan, hzoom,
    q, ty, hq, hX, hvd, hmd, hY, hty, hor⟩ := hinv
  have horA : s.cfg.orientation = Orient.horizontal := by rw [hcfg, horient]
  unfold mousemoveEvt
  rw [hdm]
  cases hb : s0.isDrawingMode
  · -- normal mode: the drag branch of handleCanvasMouseMove runs
    rw [if_neg (by simp)]
    unfold handleCanvasMouseMove
    rw [hdm, hdrw, hb, hsp]
    rw [if_neg (by simp), if_neg (by simp)]
    rw [hdragged]
    simp only [hdragging, if_true]
    have hmy : (toContent s m).y = (m.y - s0.panY) / s0.zoomLevel := by
      simp [toContent, hpan, hzoom]
    have hup := updateAt_get? (dragMoveUpdate s.cfg.orientation (toContent s m)) j j s.photos
    rw [if_pos rfl, hq] at hup
    rw [horA] at hup
    obtain ⟨hX2, hY2, hvd2, hmd2, hox2⟩ := dragMove_pin (toContent s m) q x0 hX hx0 hor
    have hdate2 : (dragMoveUpdate Orient.horizontal (toContent s m) q).hasValidDate = true →
        dateCoord s.cfg (dragMoveUpdate Orient.horizontal (toContent s m) q).mdate = x0 := by
      intro h
      rw [hmd2, hmd, hcfg]
      exact hdate (by rw [← hvd, ← hvd2, h])
    have hty2 : (dragMoveUpdate Orient.horizontal (toContent s m) q).hasValidDate = false →
        (toContent s m).y ≠ 0 := by
      intro h
      rw [hmy]
      exact hm (by rw [← hvd, ← hvd2, h])
    obtain ⟨q', hq', hX', hY', hvd', hmd', hox'⟩ :=
      layout_pin s.cfg x0 horA
        (updateAt j (dragMoveUpdate Orient.horizontal (toContent s m)) s.photos) j
        (dragMoveUpdate Orient.horizontal (toContent s m) q) (toContent s m).y
        hup hX2 hY2 hx0 hdate2 hty2
    rw [horA]
    refine ⟨by simpa [renderPhotos] using hcfg, by simp [renderPhotos],
      by simp [renderPhotos], by simp [renderPhotos], by simp [renderPhotos, hb],
      by simp [renderPhotos, hb], by simpa [renderPhotos] using hpan,
      by simpa [renderPhotos] using hzoom, q', (toContent s m).y, ?_, hX', ?_, ?_,
      hY', ?_, ?_⟩
    · simpa [renderPhotos] using hq'
    · rw [hvd', hvd2, hvd]
    · rw [hmd', hmd2, hmd]
    · intro hf
      rw [hmy]
      exact hm hf
    · rw [hox', hox2]
      exact Or.inr rfl
  · -- draw mode: handleCanvasMouseMove early-returns; draw re-renders
    rw [if_pos rfl]
    unfold handleCanvasMouseMove
    rw [hdm, hdrw, hb]
    rw [if_pos (by simp)]
    unfold draw
    rw [hdrw, hb, if_pos rfl]
    have hdate2 : q.hasValidDate = true → dateCoord s.cfg q.mdate = x0 := by
      intro h
      rw [hmd, hcfg]
      exact hdate (by rw [← hvd, h])
    have hty2 : q.hasValidDate = false → ty ≠ 0 := by
      intro h
      exact hty (by rw [← hvd, h])
    obtain ⟨q', hq', hX', hY', hvd', hmd', hox'⟩ :=
      layout_pin s.cfg x0 horA s.photos j q ty hq hX hY hx0 hdate2 hty2
    refine ⟨by simpa [renderPhotos] using hcfg, by simpa [renderPhotos] using hsp,
      by simpa [renderPhotos] using hdragging, by simpa [renderPhotos] using hdragged,
      by simpa [renderPhotos, hb] using hdm, by simp [renderPhotos, hb],
      by simpa [renderPhotos] using hpan, by simpa [renderPhotos] using hzoom,
      q', ty, ?_, hX', ?_, ?_, hY', hty, ?_⟩
    · simpa [renderPhotos] using hq'
    · rw [hvd', hvd]
    · rw [hmd', hmd]
    · rw [hox']
      exact hor

theorem dragInv_mousedown (s : TLState) (down : Point) (j : ℕ) (p0 : Photo) (x0 ty0 : ℚ)
    (hspace : s.spacePressed = false)
    (hdraw0 : s.isDrawing = false)
    (hfind : findPhotoIdx (toContent s down) s.photos = some j)
    (hj : s.photos.get? j = some p0)
    (hX : p0.timelineX = some x0)
    (hY : p0.timelineY = some ty0)
    (hty0 : ty0 ≠ 0)
    (hox : ¬ truthy p0.originalX) :
    DragInv s j x0 p0 (mousedownEvt s down) := by
  unfold mousedownEvt handleCanvasMouseDown
  rw [hspace]
  cases hb : s.isDrawingMode
  · rw [if_neg (by simp), if_neg (by simp)]
    simp only [hfind]
    exact ⟨rfl, rfl, rfl, rfl, hb.symm, hdraw0.trans hb.symm, rfl, rfl, p0, ty0, hj, hX,
      rfl, rfl, hY, fun _ => hty0, Or.inl hox⟩
  · rw [if_pos rfl, if_neg (by simp)]
    simp only [hfind]
    unfold startDrawing
    exact ⟨rfl, rfl, rfl, rfl, hb.symm, hb.symm, rfl, rfl, p0, ty0, hj, hX, rfl, rfl,
      hY, fun _ => hty0, Or.inl hox⟩

theorem dragInv_fold (s0 : TLState) (j : ℕ) (x0 : ℚ) (p0 : Photo)
    (horient : s0.cfg.orientation = .horizontal) (hx0 : x0 ≠ 0)
    (hdate : p0.hasValidDate = true → dateCoord s0.cfg p0.mdate = x0) :
    ∀ (moves : List Point) (s : TLState),
      (∀ m ∈ moves, p0.hasValidDate = false → (m.y - s0.panY) / s0.zoomLevel ≠ 0) →
      DragInv s0 j x0 p0 s → DragInv s0 j x0 p0 (moves.foldl mousemoveEvt s) := by
  intro moves
  induction moves with
  | nil => intro s _ hinv; simpa using hinv
  | cons m ms ih =>
      intro s hms hinv
      rw [List.foldl_cons]
      exact ih (mousemoveEvt s m) (fun m' hm' => hms m' (List.mem_cons_of_mem m hm'))
        (dragInv_step s0 j x0 p0 horient hx0 hdate m
          (hms m (List.mem_cons_self m ms)) s hinv)

theorem dragInv_mouseup (s0 : TLState) (j : ℕ) (x0 : ℚ) (p0 : Photo) (s : TLState)
    (hinv : DragInv s0 j x0 p0 s) :
    ∃ q, (mouseupEvt s).photos.get? j = some q ∧ q.timelineX = some x0 := by
  obtain ⟨hcfg, hsp, hdragging, hdragged, hdm, hdrw, hpan, hzoom,
    q, ty, hq, hX, hvd, hmd, hY, hty, hor⟩ := hinv
  have hcore : ∀ t : TLState, t.isDraggingPhoto = true → t.draggedPhoto = some j →
      t.photos = s.photos →
      ∃ q', (handleCanvasMouseUp t).photos.get? j = some q' ∧ q'.timelineX = some x0 := by
    intro t hdrag hdp hph
    unfold handleCanvasMouseUp
    by_cases hpn : t.isPanning
    · rw [if_pos hpn]
      simp only [hdrag, if_true, hdp, hph]
      refine ⟨clearOriginals q, ?_, by simpa [clearOriginals] using hX⟩
      rw [updateAt_get? clearOriginals j j s.photos, if_pos rfl, hq]
      rfl
    · rw [if_neg hpn]
      simp only [hdrag, if_true, hdp, hph]
      refine ⟨clearOriginals q, ?_, by simpa [clearOriginals] using hX⟩
      rw [updateAt_get? clearOriginals j j s.photos, if_pos rfl, hq]
      rfl
  unfold mouseupEvt
  rw [hdm]
  cases hb : s0.isDrawingMode
  · rw [if_neg (by simp)]
    exact hcore s hdragging hdragged rfl
  · rw [if_pos rfl]
    obtain ⟨q', hq', hX'⟩ := hcore s hdragging hdragged rfl
    exact ⟨q', by simpa [stopDrawing] using hq', hX'⟩

/-- C6 (amended): on a horizontal-orientation timeline, a drag session
(press hitting the photo at index `j`, any sequence of pointer moves,
release) changes only the dragged photo's secondary (vertical)
coordinate; its primary coordinate `timelineX` equals its pre-drag value
`x0` after every move and after the drag ends — provided the pre-drag
state is post-layout (for a dated photo, `timelineX` equals its
date-derived coordinate, as every render re-establishes), the drag-origin
bookkeeping starts clear (as pointer-up always leaves it), and, if the
photo is undated, no pointer move puts its content-space `y` at exactly
0 (a zero coordinate makes the falsy grid check of the re-render
relocate the photo, the case of the counterexample). -/
theorem claim_C6_axis_pin (s : TLState) (down : Point) (moves : List Point)
    (j : ℕ) (p0 : Photo) (x0 : ℚ)
    (horient : s.cfg.orientation = .horizontal)
    (hspace : s.spacePressed = false)
    (hdraw0 : s.isDrawing = false)
    (hfind : findPhotoIdx (toContent s down) s.photos = some j)
    (hj : s.photos.get? j = some p0)
    (hX : p0.timelineX = some x0)
    (hox : ¬ truthy p0.originalX)
    (hdate : p0.hasValidDate = true → dateCoord s.cfg p0.mdate = x0)
    (hmoves : ∀ m ∈ moves, p0.hasValidDate = false → (m.y - s.panY) / s.zoomLevel ≠ 0) :
    (∀ k : ℕ, ∃ q, ((moves.take k).foldl mousemoveEvt (mousedownEvt s down)).photos.get? j
        = some q ∧ q.timelineX = some x0)
    ∧ ∃ q, (dragSession s down moves).photos.get? j = some q ∧ q.timelineX = some x0 := by
  obtain ⟨p', hp', hhit⟩ := findPhotoIdx_get? (toContent s down) s.photos j hfind
  obtain rfl : p0 = p' := by
    rw [hj] at hp'
    exact Option.some.inj hp'
  have hx0 : x0 ≠ 0 := by
    have h1 := hhit.1
    rw [hX] at h1
    simpa using h1
  obtain ⟨ty0, hY, hty0⟩ : ∃ t, p0.timelineY = some t ∧ t ≠ 0 := by
    have h2 := hhit.2.1
    cases hYv : p0.timelineY with
    | none => rw [hYv] at h2; simp at h2
    | some t =>
        rw [hYv] at h2
        exact ⟨t, rfl, by simpa using h2⟩
  have hinv0 := dragInv_mousedown s down j p0 x0 ty0 hspace hdraw0 hfind hj hX hY hty0 hox
  have hfold : ∀ ms : List Point,
      (∀ m ∈ ms, p0.hasValidDate = false → (m.y - s.panY) / s.zoomLevel ≠ 0) →
      DragInv s j x0 p0 (ms.foldl mousemoveEvt (mousedownEvt s down)) :=
    fun ms hms => dragInv_fold s j x0 p0 horient hx0 hdate ms (mousedownEvt s down) hms hinv0
  constructor
  · intro k
    obtain ⟨-, -, -, -, -, -, -, -, q, ty, hq, hX', -⟩ :=
      hfold (moves.take k) (fun m hm => hmoves m ((List.take_subset k moves) hm))
    exact ⟨q, hq, hX'⟩
  · exact dragInv_mouseup s j x0 p0 _ (hfold moves hmoves)

/-- Witness for `claim_C6_axis_pin`: an undated photo at (400, 200)
dragged through one move to content `y = 250` keeps `timelineX = 400`. -/
theorem claim_C6_axis_pin_holds :
    ∃ q, (dragSession (idleSt [⟨1, false, ⟨2023, 1, 1⟩, some 400, some 200, none, none, none⟩])
        ⟨400, 200⟩ [⟨400, 250⟩]).photos.get? 0 = some q ∧ q.timelineX = some 400 :=
  (claim_C6_axis_pin (idleSt [⟨1, false, ⟨2023, 1, 1⟩, some 400, some 200, none, none, none⟩])
      ⟨400, 200⟩ [⟨400, 250⟩] 0 ⟨1, false, ⟨2023, 1, 1⟩, some 400, some 200, none, none, none⟩
      400 rfl rfl rfl
      (by norm_num [findPhotoIdx, hitPhoto, toContent, idleSt])
      rfl rfl (by simp) (by simp) (by norm_num [idleSt])).2

end LifeCurve
